import Mathlib

/-!
# Verification of the alert dispatch engine (`src/consolidado/src/alerts/alert_manager.py`)

Shallow embedding of the `AlertManager` core: admission control
(`_check_rate_limit`, `_is_duplicate`), fanout with critical retry
(`_process_alert`), rate tracking (`_track_sent_alert`), history trimming
(`_cleanup_history`), alert creation (`create_alert`) and trigger evaluation
(`check_triggers`).

Conventions of the embedding:
- `datetime` values are modelled as `Int` seconds; `timedelta(hours=1)` is
  `3600`, `timedelta(minutes=1)` is `60`, the duplicate window is
  `duplicate_window_minutes * 60`.
- Python dictionaries holding the rate tracker are association lists
  `List (String × List Int)`; `dict.get(k, default)` is `trackGet`, in-place
  assignment is `trackSet`.
- A channel's `send_alert` is an external capability; it is abstracted by a
  parameter `sendOk : String → Bool` saying whether the named channel's send
  succeeds during the current processing pass.
- Observable effects of one processing pass (check evaluations, sends, sleeps,
  re-enqueues, state writes) are recorded in an event trace so that temporal
  claims (ordering of admission vs. delivery, number of attempts) are statable.
-/

/-- Modelled from the spec: `AlertPriority` lives in
`alerts/channels/base_channel.py`, which is not among the sources; the spec
(§3) fixes the four tiers LOW/MEDIUM/HIGH/CRITICAL.  `value` is the enum
member's string value, used by the source as a dictionary key. -/
inductive AlertPriority where
  | low
  | medium
  | high
  | critical
deriving DecidableEq

def AlertPriority.value : AlertPriority → String
  | .low => "low"
  | .medium => "medium"
  | .high => "high"
  | .critical => "critical"

/-- The `Alert` dataclass (source lines 26–38): a single `sent` boolean and a
`retry_count`; the source has no per-channel delivery ledger field. -/
structure Alert where
  id : String
  title : String
  message : String
  priority : AlertPriority
  symbol : String
  timestamp : Int
  channels : List String
  metadata : List (String × String)
  sent : Bool
  retry_count : Nat
deriving DecidableEq

/-- One `rate_limits[channel][priority]` entry; `none` models an absent key. -/
structure RateLimit where
  max_per_hour : Option Nat
  max_per_minute : Option Nat
deriving DecidableEq

/-- Python truthiness of an optional integer limit: `None` and `0` are falsy.
The source guards every limit with `if max_per_hour:` / `if max_per_minute:`. -/
def truthy : Option Nat → Bool
  | none => false
  | some n => n != 0

/-- Static configuration of the manager: registered channel names (the keys of
`self.channels`), `rate_limits`, `duplicate_window_minutes`,
`max_history_size` and `default_channels`. -/
structure Config where
  channels : List String
  rate_limits : String → String → RateLimit
  duplicate_window_minutes : Nat
  max_history_size : Option Nat
  default_channels : String → Option (List String)

/-- `self.duplicate_window` in seconds. -/
def dupWindow (cfg : Config) : Int := (cfg.duplicate_window_minutes : Int) * 60

/-- The tracker dictionary `self.sent_alerts_tracker`. -/
abbrev Tracker := List (String × List Int)

/-- Dictionary lookup with `[]` as default (`setdefault(key, [])` semantics). -/
def trackGet : Tracker → String → List Int
  | [], _ => []
  | (k1, v1) :: rest, k => if k1 = k then v1 else trackGet rest k

/-- Dictionary assignment `tracker[key] = v` (in the source, the in-place slice
assignment `tracker[:] = [...]` mutates the list stored under the key). -/
def trackSet : Tracker → String → List Int → Tracker
  | [], k, v => [(k, v)]
  | (k1, v1) :: rest, k, v =>
    if k1 = k then (k1, v) :: rest else (k1, v1) :: trackSet rest k v

/-- The tracker key `f"{channel_name}_{alert.priority.value}"`. -/
def rateKey (ch : String) (prioVal : String) : String := ch ++ "_" ++ prioVal

/-- `[ts for ts in tracker if ts > hour_ago]` with `hour_ago = now - 3600`. -/
def pruneHour (now : Int) (ts : List Int) : List Int :=
  ts.filter (fun t => decide (now - 3600 < t))

/-- Mutable manager state touched by alert processing. -/
structure MState where
  sent_alerts_tracker : Tracker
  recent_alerts : List String
  alert_history : List Alert
deriving DecidableEq

/-- The per-channel loop body of `_check_rate_limit` (source lines 253–292):
skip channels whose two limits are both falsy; otherwise prune the channel's
tracker entry to the trailing hour, then reject when the hourly or the
per-minute count meets or exceeds a truthy limit. -/
def rateLoop (cfg : Config) (prioVal : String) (now : Int) :
    List String → Tracker → Bool × Tracker
  | [], tracker => (true, tracker)
  | ch :: rest, tracker =>
    let lim := cfg.rate_limits ch prioVal
    if truthy lim.max_per_hour = false ∧ truthy lim.max_per_minute = false then
      rateLoop cfg prioVal now rest tracker
    else
      let key := rateKey ch prioVal
      let ts2 := pruneHour now (trackGet tracker key)
      let tracker2 := trackSet tracker key ts2
      if truthy lim.max_per_hour = true ∧ lim.max_per_hour.getD 0 ≤ ts2.length then
        (false, tracker2)
      else if truthy lim.max_per_minute = true ∧
          lim.max_per_minute.getD 0 ≤ (ts2.filter (fun t => decide (now - 60 < t))).length then
        (false, tracker2)
      else
        rateLoop cfg prioVal now rest tracker2

/-- `AlertManager._check_rate_limit`. -/
def check_rate_limit (cfg : Config) (tracker : Tracker) (a : Alert) (now : Int) :
    Bool × Tracker :=
  rateLoop cfg a.priority.value now a.channels tracker

/-- The dedup key `f"{alert.symbol}_{alert.title}_{alert.message}"`. -/
def alertHash (a : Alert) : String := a.symbol ++ "_" ++ a.title ++ "_" ++ a.message

/-- `AlertManager._is_duplicate` (source lines 305–329).  The source computes
`cutoff_time = now - duplicate_window` but the copy loop keeps every element of
`recent_alerts` unchanged ("Por simplicidad, mantenemos todas por ahora"), so
`now` and `window` never influence the result. -/
def is_duplicate (recent : List String) (a : Alert) (now : Int) (window : Int) :
    Bool × List String :=
  let h := alertHash a
  let _cutoff := now - window
  let recent_to_keep := recent
  if h ∈ recent_to_keep then (true, recent_to_keep)
  else (false, h :: recent_to_keep)

/-- The loop of `_track_sent_alert`: append `now` under each channel's key. -/
def trackSentLoop (prioVal : String) (now : Int) : List String → Tracker → Tracker
  | [], tracker => tracker
  | ch :: rest, tracker =>
    let key := rateKey ch prioVal
    trackSentLoop prioVal now rest (trackSet tracker key (trackGet tracker key ++ [now]))

/-- `AlertManager._track_sent_alert` (source lines 294–303): records one send
timestamp for every channel listed on the alert, registered or not. -/
def track_sent_alert (a : Alert) (now : Int) (tracker : Tracker) : Tracker :=
  trackSentLoop a.priority.value now a.channels tracker

/-- Python slice `l[-n:]`; for `n = 0` the slice `[-0:]` is `[0:]`, the whole
list, so a zero bound never trims. -/
def sliceLast (n : Nat) (l : List Alert) : List Alert :=
  if n = 0 then l else l.drop (l.length - n)

/-- `AlertManager._cleanup_history` (source lines 331–337). -/
def cleanup_history (maxOpt : Option Nat) (hist : List Alert) : List Alert :=
  let maxH := maxOpt.getD 1000
  if maxH < hist.length then sliceLast maxH hist else hist

/-- Observable events of one processing pass, in program order. -/
inductive Event where
  | rate_check (ok : Bool)
  | dup_check (isDup : Bool)
  | send (channel : String) (ok : Bool)
  | sleep (secs : Int)
  | enqueue (id : String)
  | mark_sent
  | history_append
deriving DecidableEq

def isSendEvent : Event → Bool
  | .send _ _ => true
  | _ => false

def sendEvents (tr : List Event) : List Event := tr.filter isSendEvent

def isEnqueueEvent : Event → Bool
  | .enqueue _ => true
  | _ => false

def enqueueEvents (tr : List Event) : List Event := tr.filter isEnqueueEvent

/-- Result of the fanout loop of `_process_alert`. -/
structure FanOut where
  alert : Alert
  requeued : List Alert
  events : List Event
deriving DecidableEq

/-- The sequential `await` loop over `send_tasks` (source lines 227–238): on a
failed send of a CRITICAL alert with fewer than 3 retries so far, increment
`retry_count`, sleep `2 ** retry_count` seconds and put the alert back on the
queue; then continue with the remaining channels.  The source re-enqueues a
reference to the alert object; the embedding snapshots its value at the moment
of the enqueue. -/
def fanoutLoop (sendOk : String → Bool) : List String → Alert → FanOut
  | [], a => { alert := a, requeued := [], events := [] }
  | ch :: rest, a =>
    if sendOk ch then
      let r := fanoutLoop sendOk rest a
      { r with events := Event.send ch true :: r.events }
    else if a.priority = AlertPriority.critical ∧ a.retry_count < 3 then
      let a1 := { a with retry_count := a.retry_count + 1 }
      let r := fanoutLoop sendOk rest a1
      { alert := r.alert,
        requeued := a1 :: r.requeued,
        events := Event.send ch false :: Event.sleep (2 ^ a1.retry_count) ::
          Event.enqueue a1.id :: r.events }
    else
      let r := fanoutLoop sendOk rest a
      { r with events := Event.send ch false :: r.events }

/-- Result of one `_process_alert` pass. -/
structure ProcOut where
  state : MState
  enqueued : List Alert
  trace : List Event
deriving DecidableEq

/-- `AlertManager._process_alert` (source lines 205–251): rate-limit check,
duplicate check, fanout to the registered channels among `alert.channels`,
then unconditionally `alert.sent = True`, `_track_sent_alert`, history append
and `_cleanup_history`.  Rejection by either admission check returns before
any send. -/
def process_alert (cfg : Config) (st : MState) (a : Alert) (now : Int)
    (sendOk : String → Bool) : ProcOut :=
  let rl := check_rate_limit cfg st.sent_alerts_tracker a now
  let st1 := { st with sent_alerts_tracker := rl.2 }
  if rl.1 = false then
    { state := st1, enqueued := [], trace := [Event.rate_check false] }
  else
    let dup := is_duplicate st1.recent_alerts a now (dupWindow cfg)
    let st2 := { st1 with recent_alerts := dup.2 }
    if dup.1 = true then
      { state := st2, enqueued := [], trace := [Event.rate_check true, Event.dup_check true] }
    else
      let sendChs := a.channels.filter (fun ch => decide (ch ∈ cfg.channels))
      let r := fanoutLoop sendOk sendChs a
      let a3 := { r.alert with sent := true }
      let tracker2 := track_sent_alert a3 now st2.sent_alerts_tracker
      let hist := cleanup_history cfg.max_history_size (st2.alert_history ++ [a3])
      { state := { st2 with sent_alerts_tracker := tracker2, alert_history := hist },
        enqueued := r.requeued,
        trace := Event.rate_check true :: Event.dup_check false ::
          (r.events ++ [Event.mark_sent, Event.history_append]) }

/-- The id expression of `create_alert` (source line 367):
`f"alert_{now:%Y%m%d_%H%M%S}_{hash(title) % 10000}"`, with the process hash
function abstract and `%` the Python modulo (sign of the divisor). -/
def create_alert_id (nowStr : String) (hashT : String → Int) (title : String) : String :=
  "alert_" ++ nowStr ++ "_" ++ toString (hashT title % 10000)

/-- Channel resolution of `create_alert`: explicit list if given, else the
configured default for the priority, else every registered channel; the result
is filtered to registered channels. -/
def resolveChannels (cfg : Config) (prioVal : String) (channels : Option (List String)) :
    List String :=
  let chans :=
    match channels with
    | some cs => cs
    | none => (cfg.default_channels prioVal).getD cfg.channels
  chans.filter (fun ch => decide (ch ∈ cfg.channels))

/-- Result of `create_alert`: the returned id (or `None`) and the alerts put on
the dispatch queue. -/
structure CreateOut where
  result : Option String
  enqueued : List Alert
deriving DecidableEq

/-- `AlertManager.create_alert` (source lines 339–384). -/
def create_alert (cfg : Config) (nowStr : String) (now : Int) (hashT : String → Int)
    (title message symbol : String) (priority : AlertPriority)
    (channels : Option (List String)) (metadata : List (String × String)) : CreateOut :=
  let available := resolveChannels cfg priority.value channels
  if available.isEmpty then
    { result := none, enqueued := [] }
  else
    let aid := create_alert_id nowStr hashT title
    { result := some aid,
      enqueued := [{ id := aid, title := title, message := message, priority := priority,
                     symbol := symbol, timestamp := now, channels := available,
                     metadata := metadata, sent := false, retry_count := 0 }] }

/-- The keyword arguments a trigger supplies for `create_alert(**alert_data)`. -/
structure CreateArgs where
  title : String
  message : String
  symbol : String
  priority : AlertPriority
  channels : Option (List String)
  metadata : List (String × String)
deriving DecidableEq

/-- Outcome of one `check_triggers` pass: the triggers whose `check` call was
evaluated, those whose call raised (caught and logged by the source's
per-iteration `try/except`), and the alerts enqueued via `create_alert`. -/
structure TrigOut where
  evaluated : List String
  errors : List String
  enqueued : List Alert
deriving DecidableEq

/-- A trigger's `check(market_data)` either raises (`Except.error`) or returns
`(should_trigger, alert_data)`. -/
def trigCheckFailed : Except String (Bool × CreateArgs) → Bool
  | .error _ => true
  | .ok _ => false

/-- `AlertManager.check_triggers` (source lines 386–401): every registered
trigger is checked in turn; an exception from one is caught inside the loop
body, so the remaining triggers are still evaluated. -/
def check_triggers (cfg : Config) (nowStr : String) (now : Int) (hashT : String → Int) :
    List (String × Except String (Bool × CreateArgs)) → TrigOut
  | [] => { evaluated := [], errors := [], enqueued := [] }
  | (name, res) :: rest =>
    let restOut := check_triggers cfg nowStr now hashT rest
    match res with
    | .error _ =>
      { evaluated := name :: restOut.evaluated,
        errors := name :: restOut.errors,
        enqueued := restOut.enqueued }
    | .ok (fired, args) =>
      if fired then
        let c := create_alert cfg nowStr now hashT args.title args.message args.symbol
          args.priority args.channels args.metadata
        { evaluated := name :: restOut.evaluated,
          errors := restOut.errors,
          enqueued := c.enqueued ++ restOut.enqueued }
      else
        { evaluated := name :: restOut.evaluated,
          errors := restOut.errors,
          enqueued := restOut.enqueued }

/-- Worker drain of the dispatch queue: repeatedly `_process_alert` the head,
appending retry re-enqueues at the tail, until the queue is empty (or the fuel
bound is hit); returns the final state and the concatenated trace. -/
def run_queue (cfg : Config) (sendOk : String → Bool) (now : Int) :
    Nat → MState → List Alert → MState × List Event
  | 0, st, _ => (st, [])
  | _ + 1, st, [] => (st, [])
  | fuel + 1, st, a :: q =>
    let out := process_alert cfg st a now sendOk
    let rest := run_queue cfg sendOk now fuel out.state (q ++ out.enqueued)
    (rest.1, out.trace ++ rest.2)

/-! ## Concrete fixtures used by individual claims -/

/-- A configuration with one registered channel and no rate limits. -/
def c2Config : Config :=
  { channels := ["telegram"], rate_limits := fun _ _ => ⟨none, none⟩,
    duplicate_window_minutes := 5, max_history_size := none,
    default_channels := fun _ => none }

/-- A CRITICAL alert targeting the registered channel. -/
def c2Alert : Alert :=
  { id := "alert_x", title := "t", message := "m", priority := AlertPriority.critical,
    symbol := "BTC", timestamp := 0, channels := ["telegram"], metadata := [],
    sent := false, retry_count := 0 }

/-- A configuration whose only channel has a configured `max_per_minute` of 0. -/
def c4Config : Config :=
  { channels := ["c"], rate_limits := fun _ _ => ⟨none, some 0⟩,
    duplicate_window_minutes := 5, max_history_size := none,
    default_channels := fun _ => none }

def c4Alert : Alert :=
  { id := "alert_4", title := "t", message := "m", priority := AlertPriority.medium,
    symbol := "BTC", timestamp := 0, channels := ["c"], metadata := [],
    sent := false, retry_count := 0 }

/-- A configuration whose channel has `max_per_minute = 2`. -/
def c4wConfig : Config :=
  { channels := ["c"], rate_limits := fun _ _ => ⟨none, some 2⟩,
    duplicate_window_minutes := 5, max_history_size := none,
    default_channels := fun _ => none }

def c5Config : Config :=
  { channels := [], rate_limits := fun _ _ => ⟨none, none⟩,
    duplicate_window_minutes := 5, max_history_size := none,
    default_channels := fun _ => none }

def c6Config : Config :=
  { channels := ["email"], rate_limits := fun _ _ => ⟨none, none⟩,
    duplicate_window_minutes := 5, max_history_size := none,
    default_channels := fun _ => none }

def c6Alert : Alert :=
  { id := "alert_6", title := "t6", message := "m6", priority := AlertPriority.medium,
    symbol := "ETH", timestamp := 0, channels := ["email"], metadata := [],
    sent := false, retry_count := 0 }

/-- A configuration with `max_history_size` configured as 0. -/
def c7Config : Config :=
  { channels := ["email"], rate_limits := fun _ _ => ⟨none, none⟩,
    duplicate_window_minutes := 5, max_history_size := some 0,
    default_channels := fun _ => none }

def c7Alert : Alert :=
  { id := "alert_7", title := "t7", message := "m7", priority := AlertPriority.medium,
    symbol := "ETH", timestamp := 0, channels := ["email"], metadata := [],
    sent := false, retry_count := 0 }

def c8Config : Config :=
  { channels := ["email"], rate_limits := fun _ _ => ⟨none, none⟩,
    duplicate_window_minutes := 5, max_history_size := none,
    default_channels := fun _ => none }

def c8Alert : Alert :=
  { id := "alert_8", title := "t8", message := "m8", priority := AlertPriority.low,
    symbol := "ETH", timestamp := 0, channels := ["email"], metadata := [],
    sent := false, retry_count := 0 }

/-- A configuration with no registered channels at all. -/
def c10Config : Config :=
  { channels := [], rate_limits := fun _ _ => ⟨none, none⟩,
    duplicate_window_minutes := 5, max_history_size := none,
    default_channels := fun _ => none }

/-- An alert whose single target channel is not registered. -/
def c10Alert : Alert :=
  { id := "alert_10", title := "t10", message := "m10", priority := AlertPriority.medium,
    symbol := "ETH", timestamp := 0, channels := ["x"], metadata := [],
    sent := false, retry_count := 0 }

/-! ## Spec-side predicates (stated in the claims' own words, for comparison
with the source-derived definitions) -/

/-- Hourly send count of a tracker key, in the trailing hour before `now`. -/
def hourCount (tracker : Tracker) (key : String) (now : Int) : Nat :=
  ((trackGet tracker key).filter (fun t => decide (now - 3600 < t))).length

/-- Per-minute send count of a tracker key, in the trailing minute before `now`. -/
def minuteCount (tracker : Tracker) (key : String) (now : Int) : Nat :=
  ((trackGet tracker key).filter (fun t => decide (now - 60 < t))).length

/-- The rejection condition exactly as claim C4 states it: some target
channel's count of recorded sends in the trailing hour meets or exceeds the
configured `max_per_hour`, or the trailing-minute count meets or exceeds the
configured `max_per_minute`. -/
def claimedRateReject (cfg : Config) (tracker : Tracker) (a : Alert) (now : Int) : Prop :=
  ∃ ch ∈ a.channels,
    (∃ h, (cfg.rate_limits ch a.priority.value).max_per_hour = some h ∧
      h ≤ hourCount tracker (rateKey ch a.priority.value) now) ∨
    (∃ m, (cfg.rate_limits ch a.priority.value).max_per_minute = some m ∧
      m ≤ minuteCount tracker (rateKey ch a.priority.value) now)

/-- The rejection condition the source actually implements: a truthy
(non-`None`, nonzero) limit whose count is met or exceeded. -/
def overLimit (cfg : Config) (prioVal : String) (now : Int) (tracker : Tracker)
    (ch : String) : Prop :=
  (truthy (cfg.rate_limits ch prioVal).max_per_hour = true ∧
    (cfg.rate_limits ch prioVal).max_per_hour.getD 0 ≤
      hourCount tracker (rateKey ch prioVal) now) ∨
  (truthy (cfg.rate_limits ch prioVal).max_per_minute = true ∧
    (cfg.rate_limits ch prioVal).max_per_minute.getD 0 ≤
      minuteCount tracker (rateKey ch prioVal) now)

/-- Titles of every length, used to exhibit an id collision. -/
def titleN (n : Nat) : String := String.mk (List.replicate n 'a')

/-! ## Claim theorems -/

/-- C1: the dedup store never evicts.  Whenever an alert's dedup key is present
in `recent_alerts`, `_is_duplicate` returns `True` and leaves the store
unchanged, for every current time and every configured window — so an alert
whose key was last recorded more than `duplicateWindow` ago is still suppressed,
contradicting the claimed eviction. -/
theorem dedup_store_never_evicts (recent : List String) (a : Alert) (now window : Int)
    (h : alertHash a ∈ recent) :
    is_duplicate recent a now window = (true, recent) := by
  simp [is_duplicate, h]

theorem dedup_store_never_evicts_witness :
    is_duplicate ["BTCUSDT_Price Spike_BTC +5%"]
      { id := "alert_0", title := "Price Spike", message := "BTC +5%",
        priority := AlertPriority.critical, symbol := "BTCUSDT", timestamp := 1000000,
        channels := ["telegram"], metadata := [], sent := false, retry_count := 0 }
      1000000 300 = (true, ["BTCUSDT_Price Spike_BTC +5%"]) :=
  dedup_store_never_evicts _ _ _ _ (by decide)

/-- C2: a CRITICAL alert whose only channel fails on every attempt gets exactly
ONE send attempt, not four.  The first pass records the dedup key and
re-enqueues the alert once (after a 2-second sleep), but the second pass drops
the retried alert as a duplicate before any send; the full trace is shown. -/
theorem critical_retry_single_attempt :
    (sendEvents (run_queue c2Config (fun _ => false) 0 10 ⟨[], [], []⟩ [c2Alert]).2).length = 1 ∧
    (enqueueEvents (run_queue c2Config (fun _ => false) 0 10 ⟨[], [], []⟩ [c2Alert]).2).length = 1 ∧
    (run_queue c2Config (fun _ => false) 0 10 ⟨[], [], []⟩ [c2Alert]).2 =
      [Event.rate_check true, Event.dup_check false, Event.send "telegram" false,
       Event.sleep 2, Event.enqueue "alert_x", Event.mark_sent, Event.history_append,
       Event.rate_check true, Event.dup_check true] :=
  ⟨rfl, rfl, rfl⟩

/-- C3: `create_alert` ids are NOT collision-free.  For every hash function and
every creation second, there exist two distinct titles that yield the same
alert id, because the id truncates `hash(title)` to `% 10000` (pigeonhole over
10001 distinct titles). -/
theorem alert_id_collision_exists (hashT : String → Int) (nowStr : String) :
    ∃ t1 t2 : String, t1 ≠ t2 ∧
      create_alert_id nowStr hashT t1 = create_alert_id nowStr hashT t2 := by
  have hmaps : ∀ i : Fin 10001, i ∈ (Finset.univ : Finset (Fin 10001)) →
      hashT (titleN i.val) % 10000 ∈ Finset.Icc (0 : ℤ) 9999 := by
    intro i _
    have h1 : (0 : ℤ) ≤ hashT (titleN i.val) % 10000 :=
      Int.emod_nonneg _ (by norm_num)
    have h2 : hashT (titleN i.val) % 10000 < 10000 :=
      Int.emod_lt_of_pos _ (by norm_num)
    exact Finset.mem_Icc.mpr ⟨h1, by omega⟩
  have hcard : (Finset.Icc (0 : ℤ) 9999).card < (Finset.univ : Finset (Fin 10001)).card := by
    rw [Int.card_Icc, Finset.card_univ, Fintype.card_fin]
    norm_num
  obtain ⟨i, -, j, -, hij, heq⟩ :=
    Finset.exists_ne_map_eq_of_card_lt_of_maps_to hcard hmaps
  refine ⟨titleN i.val, titleN j.val, ?_, ?_⟩
  · intro hstr
    apply hij
    apply Fin.ext
    have hdata : List.replicate i.val 'a' = List.replicate j.val 'a' := by
      simpa [titleN] using congrArg String.data hstr
    simpa using congrArg List.length hdata
  · unfold create_alert_id
    rw [heq]

/-- C5: a `create_alert` call whose resolved channel list, filtered to the
registered channels, is empty returns `None` and enqueues nothing; and every
alert that is enqueued carries a non-empty channel list. -/
theorem create_alert_empty_channels_returns_none (cfg : Config) (nowStr : String)
    (now : Int) (hashT : String → Int) (title message symbol : String)
    (priority : AlertPriority) (channels : Option (List String))
    (metadata : List (String × String)) :
    (resolveChannels cfg priority.value channels = [] →
      create_alert cfg nowStr now hashT title message symbol priority channels metadata =
        { result := none, enqueued := [] }) ∧
    (∀ b ∈ (create_alert cfg nowStr now hashT title message symbol priority channels
        metadata).enqueued, b.channels ≠ []) := by
  constructor
  · intro h
    simp [create_alert, h]
  · intro b hb
    unfold create_alert at hb
    by_cases h : (resolveChannels cfg priority.value channels).isEmpty
    · rw [if_pos h] at hb
      simp at hb
    · rw [if_neg h] at hb
      simp at hb
      subst hb
      simpa [List.isEmpty_iff] using h

theorem create_alert_empty_channels_returns_none_witness :
    create_alert c5Config "20240101_000000" 0 (fun _ => 0) "t" "m" "BTC"
      AlertPriority.medium (some ["x"]) [] = { result := none, enqueued := [] } :=
  (create_alert_empty_channels_returns_none c5Config "20240101_000000" 0 (fun _ => 0)
    "t" "m" "BTC" AlertPriority.medium (some ["x"]) []).1 rfl

/-- C7 counterexample: with `max_history_size` configured as 0, one processed
alert leaves the history at length 1, exceeding the configured bound — the
Python slice `history[-0:]` keeps the whole list, so a zero bound never
evicts. -/
theorem history_bound_zero_config_violated :
    c7Config.max_history_size = some 0 ∧
    ¬ ((process_alert c7Config ⟨[], [], []⟩ c7Alert 0 (fun _ => true)).state.alert_history.length
        ≤ c7Config.max_history_size.getD 1000) :=
  ⟨rfl, by decide⟩

/-- C8: the source has no per-channel delivery ledger.  An admitted alert whose
only channel send FAILS is nevertheless marked `sent = True` and moved to
history immediately: the single boolean records success where the trace records
a failed send. -/
theorem failed_send_marked_sent_in_history :
    (process_alert c8Config ⟨[], [], []⟩ c8Alert 0 (fun _ => false)).trace =
      [Event.rate_check true, Event.dup_check false, Event.send "email" false,
       Event.mark_sent, Event.history_append] ∧
    (process_alert c8Config ⟨[], [], []⟩ c8Alert 0 (fun _ => false)).state.alert_history.map
      Alert.sent = [true] :=
  ⟨rfl, rfl⟩

/-- C9: trigger failures are isolated.  `check_triggers` evaluates every
registered trigger, in order, whatever the outcomes of the others; a trigger
whose `check` raises is logged among the errors and the pass continues. -/
theorem trigger_failures_isolated (cfg : Config) (nowStr : String) (now : Int)
    (hashT : String → Int) (trigs : List (String × Except String (Bool × CreateArgs))) :
    (check_triggers cfg nowStr now hashT trigs).evaluated = trigs.map Prod.fst ∧
    (check_triggers cfg nowStr now hashT trigs).errors =
      (trigs.filter (fun p => trigCheckFailed p.2)).map Prod.fst := by
  induction trigs with
  | nil => exact ⟨rfl, rfl⟩
  | cons hd tl ih =>
    obtain ⟨name, res⟩ := hd
    match res with
    | .error e =>
      simp [check_triggers, trigCheckFailed, List.filter_cons, ih.1, ih.2]
    | .ok (fired, args) =>
      cases fired <;>
        simp [check_triggers, trigCheckFailed, List.filter_cons, ih.1, ih.2]

/-! ## Tracker and rate-limit lemmas -/

theorem trackGet_trackSet (t : Tracker) (k : String) (v : List Int) (k' : String) :
    trackGet (trackSet t k v) k' = if k = k' then v else trackGet t k' := by
  induction t with
  | nil =>
    simp only [trackSet, trackGet]
  | cons hd tl ih =>
    obtain ⟨k1, v1⟩ := hd
    simp only [trackSet]
    by_cases h1 : k1 = k
    · subst h1
      simp only [if_pos rfl, trackGet]
      by_cases h2 : k1 = k' <;> simp [h2]
    · simp only [if_neg h1, trackGet, ih]
      by_cases h2 : k1 = k'
      · subst h2
        have h3 : ¬ (k = k1) := fun hh => h1 hh.symm
        simp [h3]
      · simp [h2]

theorem pruneHour_idem (now : Int) (l : List Int) :
    pruneHour now (pruneHour now l) = pruneHour now l := by
  unfold pruneHour
  rw [List.filter_filter]
  apply List.filter_congr
  intro a _
  by_cases h : now - 3600 < a <;> simp [h]

theorem minuteFilter_pruneHour (now : Int) (l : List Int) :
    (pruneHour now l).filter (fun s => decide (now - 60 < s))
      = l.filter (fun s => decide (now - 60 < s)) := by
  unfold pruneHour
  rw [List.filter_filter]
  apply List.filter_congr
  intro a _
  by_cases h : now - 60 < a
  · have h2 : now - 3600 < a := by omega
    simp [h, h2]
  · simp [h]

theorem counts_trackSet_prune (t : Tracker) (key : String) (now : Int) (k : String) :
    hourCount (trackSet t key (pruneHour now (trackGet t key))) k now = hourCount t k now ∧
    minuteCount (trackSet t key (pruneHour now (trackGet t key))) k now
      = minuteCount t k now := by
  unfold hourCount minuteCount
  rw [trackGet_trackSet]
  by_cases h : key = k
  · subst h
    rw [if_pos rfl]
    constructor
    · have h1 : (pruneHour now (trackGet t key)).filter (fun s => decide (now - 3600 < s))
          = (trackGet t key).filter (fun s => decide (now - 3600 < s)) :=
        pruneHour_idem now (trackGet t key)
      rw [h1]
    · rw [minuteFilter_pruneHour]
  · rw [if_neg h]
    exact ⟨rfl, rfl⟩

theorem overLimit_trackSet_prune (cfg : Config) (p : String) (now : Int) (t : Tracker)
    (key : String) (ch : String) :
    overLimit cfg p now (trackSet t key (pruneHour now (trackGet t key))) ch ↔
      overLimit cfg p now t ch := by
  unfold overLimit
  rw [(counts_trackSet_prune t key now (rateKey ch p)).1,
    (counts_trackSet_prune t key now (rateKey ch p)).2]

theorem rateLoop_rejects (cfg : Config) (p : String) (now : Int) :
    ∀ (chs : List String) (t : Tracker),
      (∃ ch ∈ chs, overLimit cfg p now t ch) →
      (rateLoop cfg p now chs t).1 = false := by
  intro chs
  induction chs with
  | nil =>
    intro t h
    simp at h
  | cons c rest ih =>
    intro t h
    obtain ⟨ch, hmem, hover⟩ := h
    simp only [rateLoop]
    by_cases hskip : truthy (cfg.rate_limits c p).max_per_hour = false ∧
        truthy (cfg.rate_limits c p).max_per_minute = false
    · rw [if_pos hskip]
      apply ih
      rcases List.mem_cons.mp hmem with hc | hrest
      · subst hc
        exfalso
        unfold overLimit at hover
        rcases hover with ⟨h1, -⟩ | ⟨h1, -⟩
        · rw [hskip.1] at h1
          exact Bool.false_ne_true h1
        · rw [hskip.2] at h1
          exact Bool.false_ne_true h1
      · exact ⟨ch, hrest, hover⟩
    · rw [if_neg hskip]
      by_cases hhour : truthy (cfg.rate_limits c p).max_per_hour = true ∧
          (cfg.rate_limits c p).max_per_hour.getD 0 ≤
            (pruneHour now (trackGet t (rateKey c p))).length
      · rw [if_pos hhour]
      · rw [if_neg hhour]
        by_cases hmin : truthy (cfg.rate_limits c p).max_per_minute = true ∧
            (cfg.rate_limits c p).max_per_minute.getD 0 ≤
              ((pruneHour now (trackGet t (rateKey c p))).filter
                (fun s => decide (now - 60 < s))).length
        · rw [if_pos hmin]
        · rw [if_neg hmin]
          apply ih
          rcases List.mem_cons.mp hmem with hc | hrest
          · subst hc
            exfalso
            unfold overLimit at hover
            rcases hover with ⟨h1, h2⟩ | ⟨h1, h2⟩
            · exact hhour ⟨h1, h2⟩
            · apply hmin
              refine ⟨h1, ?_⟩
              have h3 : ((pruneHour now (trackGet t (rateKey ch p))).filter
                  (fun s => decide (now - 60 < s))).length
                  = minuteCount t (rateKey ch p) now := by
                rw [minuteFilter_pruneHour]
                rfl
              rw [h3]
              exact h2
          · exact ⟨ch, hrest,
              (overLimit_trackSet_prune cfg p now t (rateKey c p) ch).mpr hover⟩

theorem rateLoop_no_limits (cfg : Config) (p : String) (now : Int) :
    ∀ (chs : List String) (t : Tracker),
      (∀ ch ∈ chs, truthy (cfg.rate_limits ch p).max_per_hour = false ∧
        truthy (cfg.rate_limits ch p).max_per_minute = false) →
      rateLoop cfg p now chs t = (true, t) := by
  intro chs
  induction chs with
  | nil =>
    intro t _
    rfl
  | cons c rest ih =>
    intro t h
    have hc := h c (List.mem_cons_self c rest)
    simp only [rateLoop]
    rw [if_pos hc]
    exact ih t (fun ch hm => h ch (List.mem_cons_of_mem c hm))

theorem rateLoop_tracker_pointwise (cfg : Config) (p : String) (now : Int) :
    ∀ (chs : List String) (t : Tracker) (k : String),
      trackGet (rateLoop cfg p now chs t).2 k = trackGet t k ∨
      trackGet (rateLoop cfg p now chs t).2 k = pruneHour now (trackGet t k) := by
  intro chs
  induction chs with
  | nil =>
    intro t k
    left
    rfl
  | cons c rest ih =>
    intro t k
    simp only [rateLoop]
    by_cases hskip : truthy (cfg.rate_limits c p).max_per_hour = false ∧
        truthy (cfg.rate_limits c p).max_per_minute = false
    · rw [if_pos hskip]
      exact ih t k
    · rw [if_neg hskip]
      by_cases hhour : truthy (cfg.rate_limits c p).max_per_hour = true ∧
          (cfg.rate_limits c p).max_per_hour.getD 0 ≤
            (pruneHour now (trackGet t (rateKey c p))).length
      · rw [if_pos hhour]
        rw [trackGet_trackSet]
        by_cases hk : rateKey c p = k
        · right
          rw [if_pos hk, hk]
        · left
          rw [if_neg hk]
      · rw [if_neg hhour]
        by_cases hmin : truthy (cfg.rate_limits c p).max_per_minute = true ∧
            (cfg.rate_limits c p).max_per_minute.getD 0 ≤
              ((pruneHour now (trackGet t (rateKey c p))).filter
                (fun s => decide (now - 60 < s))).length
        · rw [if_pos hmin]
          rw [trackGet_trackSet]
          by_cases hk : rateKey c p = k
          · right
            rw [if_pos hk, hk]
          · left
            rw [if_neg hk]
        · rw [if_neg hmin]
          rcases ih (trackSet t (rateKey c p) (pruneHour now (trackGet t (rateKey c p)))) k
            with h1 | h1 <;>
            rw [h1, trackGet_trackSet] <;>
            by_cases hk : rateKey c p = k
          · right
            rw [if_pos hk, hk]
          · left
            rw [if_neg hk]
          · right
            rw [if_pos hk, hk, pruneHour_idem]
          · right
            rw [if_neg hk]

theorem rateLoop_prunes (cfg : Config) (p : String) (now : Int) :
    ∀ (chs : List String) (t : Tracker),
      (rateLoop cfg p now chs t).1 = true →
      ∀ ch ∈ chs,
        (truthy (cfg.rate_limits ch p).max_per_hour = true ∨
          truthy (cfg.rate_limits ch p).max_per_minute = true) →
        trackGet (rateLoop cfg p now chs t).2 (rateKey ch p)
          = pruneHour now (trackGet t (rateKey ch p)) := by
  intro chs
  induction chs with
  | nil =>
    intro t _ ch hm
    simp at hm
  | cons c rest ih =>
    intro t htrue ch hm hlim
    simp only [rateLoop] at htrue ⊢
    by_cases hskip : truthy (cfg.rate_limits c p).max_per_hour = false ∧
        truthy (cfg.rate_limits c p).max_per_minute = false
    · rw [if_pos hskip] at htrue ⊢
      rcases List.mem_cons.mp hm with hc | hrest
      · subst hc
        exfalso
        rcases hlim with h1 | h1
        · rw [hskip.1] at h1
          exact Bool.false_ne_true h1
        · rw [hskip.2] at h1
          exact Bool.false_ne_true h1
      · exact ih t htrue ch hrest hlim
    · rw [if_neg hskip] at htrue ⊢
      by_cases hhour : truthy (cfg.rate_limits c p).max_per_hour = true ∧
          (cfg.rate_limits c p).max_per_hour.getD 0 ≤
            (pruneHour now (trackGet t (rateKey c p))).length
      · rw [if_pos hhour] at htrue
        exact absurd htrue (by simp)
      · rw [if_neg hhour] at htrue ⊢
        by_cases hmin : truthy (cfg.rate_limits c p).max_per_minute = true ∧
            (cfg.rate_limits c p).max_per_minute.getD 0 ≤
              ((pruneHour now (trackGet t (rateKey c p))).filter
                (fun s => decide (now - 60 < s))).length
        · rw [if_pos hmin] at htrue
          exact absurd htrue (by simp)
        · rw [if_neg hmin] at htrue ⊢
          rcases List.mem_cons.mp hm with hc | hrest
          · subst hc
            rcases rateLoop_tracker_pointwise cfg p now rest
                (trackSet t (rateKey ch p) (pruneHour now (trackGet t (rateKey ch p))))
                (rateKey ch p) with h1 | h1
            · rw [h1, trackGet_trackSet, if_pos rfl]
            · rw [h1, trackGet_trackSet, if_pos rfl, pruneHour_idem]
          · have h1 := ih
              (trackSet t (rateKey c p) (pruneHour now (trackGet t (rateKey c p))))
              htrue ch hrest hlim
            rw [h1, trackGet_trackSet]
            by_cases hk : rateKey c p = rateKey ch p
            · rw [if_pos hk, hk, pruneHour_idem]
            · rw [if_neg hk]

/-- C4 counterexample: a configured `max_per_minute` of 0 satisfies the claim's
rejection condition (the trailing-minute count, 0, meets the configured
maximum, 0), yet `_check_rate_limit` ADMITS the alert: Python truthiness makes
a zero limit indistinguishable from an absent one. -/
theorem rate_limit_zero_config_admitted :
    claimedRateReject c4Config [] c4Alert 0 ∧
    (check_rate_limit c4Config [] c4Alert 0).1 = true := by
  constructor
  · unfold claimedRateReject
    refine ⟨"c", by decide, Or.inr ⟨0, rfl, Nat.zero_le _⟩⟩
  · rfl

/-- C4 (amended): with "configured limit" read the way the source reads it —
truthy, i.e. present and nonzero (a limit configured as 0 imposes none, like an
absent one) — the claim holds: (1) if any target channel's trailing-hour or
trailing-minute count meets or exceeds its truthy limit, the check rejects and
processing performs no send and schedules no retry, so no channel receives the
alert; (2) channels with no truthy limits impose none (the check admits and
leaves the tracker untouched); (3) whenever the check admits, the tracker entry
of every truthy-limited target channel has been pruned to the trailing hour. -/
theorem rate_limit_suppresses_entirely (cfg : Config) (st : MState) (a : Alert)
    (now : Int) (sendOk : String → Bool) :
    ((∃ ch ∈ a.channels, overLimit cfg a.priority.value now st.sent_alerts_tracker ch) →
      (check_rate_limit cfg st.sent_alerts_tracker a now).1 = false ∧
      sendEvents (process_alert cfg st a now sendOk).trace = [] ∧
      (process_alert cfg st a now sendOk).enqueued = []) ∧
    ((∀ ch ∈ a.channels,
        truthy (cfg.rate_limits ch a.priority.value).max_per_hour = false ∧
        truthy (cfg.rate_limits ch a.priority.value).max_per_minute = false) →
      check_rate_limit cfg st.sent_alerts_tracker a now = (true, st.sent_alerts_tracker)) ∧
    ((check_rate_limit cfg st.sent_alerts_tracker a now).1 = true →
      ∀ ch ∈ a.channels,
        (truthy (cfg.rate_limits ch a.priority.value).max_per_hour = true ∨
          truthy (cfg.rate_limits ch a.priority.value).max_per_minute = true) →
        trackGet (check_rate_limit cfg st.sent_alerts_tracker a now).2
            (rateKey ch a.priority.value)
          = pruneHour now (trackGet st.sent_alerts_tracker (rateKey ch a.priority.value))) := by
  refine ⟨?_, ?_, ?_⟩
  · intro h
    have hf : (check_rate_limit cfg st.sent_alerts_tracker a now).1 = false :=
      rateLoop_rejects cfg a.priority.value now a.channels st.sent_alerts_tracker h
    refine ⟨hf, ?_, ?_⟩
    · simp [process_alert, hf, sendEvents, isSendEvent]
    · simp [process_alert, hf]
  · intro h
    exact rateLoop_no_limits cfg a.priority.value now a.channels st.sent_alerts_tracker h
  · intro h ch hm hlim
    exact rateLoop_prunes cfg a.priority.value now a.channels st.sent_alerts_tracker h ch hm hlim

theorem rate_limit_suppresses_entirely_witness :
    (check_rate_limit c4wConfig [("c_medium", [-10, -5])] c4Alert 0).1 = false ∧
    sendEvents (process_alert c4wConfig ⟨[("c_medium", [-10, -5])], [], []⟩ c4Alert 0
      (fun _ => true)).trace = [] ∧
    (process_alert c4wConfig ⟨[("c_medium", [-10, -5])], [], []⟩ c4Alert 0
      (fun _ => true)).enqueued = [] :=
  (rate_limit_suppresses_entirely c4wConfig ⟨[("c_medium", [-10, -5])], [], []⟩ c4Alert 0
      (fun _ => true)).1
    ⟨"c", by decide, Or.inr ⟨rfl, by decide⟩⟩

/-- C6: admission precedes delivery.  (1) In every processing trace, any send
event is preceded by a passed rate check and a passed duplicate check; (2) an
alert rejected by either check is silently dropped: no send event, no retry
re-enqueue, and the history is untouched (the embedding returns normally, as
the source catches any exception at the alert boundary, so no error reaches
the producer). -/
theorem admission_precedes_delivery (cfg : Config) (st : MState) (a : Alert) (now : Int)
    (sendOk : String → Bool) :
    (∀ pre ch ok post,
      (process_alert cfg st a now sendOk).trace = pre ++ Event.send ch ok :: post →
      Event.rate_check true ∈ pre ∧ Event.dup_check false ∈ pre) ∧
    (((check_rate_limit cfg st.sent_alerts_tracker a now).1 = false ∨
        (is_duplicate st.recent_alerts a now (dupWindow cfg)).1 = true) →
      sendEvents (process_alert cfg st a now sendOk).trace = [] ∧
      (process_alert cfg st a now sendOk).enqueued = [] ∧
      (process_alert cfg st a now sendOk).state.alert_history = st.alert_history) := by
  by_cases hrl : (check_rate_limit cfg st.sent_alerts_tracker a now).1 = false
  · have htr : (process_alert cfg st a now sendOk).trace = [Event.rate_check false] := by
      simp [process_alert, hrl]
    constructor
    · intro pre ch ok post heq
      exfalso
      have hsend : Event.send ch ok ∈ (process_alert cfg st a now sendOk).trace := by
        rw [heq]
        exact List.mem_append_right _ (List.mem_cons_self _ _)
      rw [htr] at hsend
      simp at hsend
    · intro _
      refine ⟨by rw [htr]; rfl, ?_, ?_⟩
      · simp [process_alert, hrl]
      · simp [process_alert, hrl]
  · have hrl' : (check_rate_limit cfg st.sent_alerts_tracker a now).1 = true := by
      revert hrl
      cases (check_rate_limit cfg st.sent_alerts_tracker a now).1 <;> simp
    by_cases hdup : (is_duplicate st.recent_alerts a now (dupWindow cfg)).1 = true
    · have htr : (process_alert cfg st a now sendOk).trace =
          [Event.rate_check true, Event.dup_check true] := by
        simp [process_alert, hrl', hdup]
      constructor
      · intro pre ch ok post heq
        exfalso
        have hsend : Event.send ch ok ∈ (process_alert cfg st a now sendOk).trace := by
          rw [heq]
          exact List.mem_append_right _ (List.mem_cons_self _ _)
        rw [htr] at hsend
        simp at hsend
      · intro _
        refine ⟨by rw [htr]; rfl, ?_, ?_⟩
        · simp [process_alert, hrl', hdup]
        · simp [process_alert, hrl', hdup]
    · have hdup' : (is_duplicate st.recent_alerts a now (dupWindow cfg)).1 = false := by
        revert hdup
        cases (is_duplicate st.recent_alerts a now (dupWindow cfg)).1 <;> simp
      have htr : ∃ tail, (process_alert cfg st a now sendOk).trace =
          Event.rate_check true :: Event.dup_check false :: tail := by
        refine ⟨(fanoutLoop sendOk (a.channels.filter (fun ch => decide (ch ∈ cfg.channels)))
          a).events ++ [Event.mark_sent, Event.history_append], ?_⟩
        simp [process_alert, hrl', hdup']
      constructor
      · intro pre ch ok post heq
        obtain ⟨tail, htail⟩ := htr
        rw [htail] at heq
        cases pre with
        | nil => simp at heq
        | cons e1 pre1 =>
          cases pre1 with
          | nil => simp at heq
          | cons e2 pre2 =>
            rw [List.cons_append, List.cons_append] at heq
            have h1 : Event.rate_check true = e1 := (List.cons.injEq _ _ _ _ ▸ heq).1
            have hrest := (List.cons.injEq _ _ _ _ ▸ heq).2
            have h2 : Event.dup_check false = e2 := (List.cons.injEq _ _ _ _ ▸ hrest).1
            rw [← h1, ← h2]
            exact ⟨List.mem_cons_self _ _,
              List.mem_cons_of_mem _ (List.mem_cons_self _ _)⟩
      · intro h
        rcases h with h | h
        · exact absurd h hrl
        · exact absurd h hdup

/-! ## History lemmas -/

theorem cleanup_history_length (maxOpt : Option Nat) (l : List Alert)
    (hpos : 0 < maxOpt.getD 1000) :
    (cleanup_history maxOpt l).length ≤ maxOpt.getD 1000 := by
  unfold cleanup_history sliceLast
  by_cases h : maxOpt.getD 1000 < l.length
  · rw [if_pos h, if_neg (by omega)]
    rw [List.length_drop]
    omega
  · rw [if_neg h]
    omega

theorem cleanup_history_suffix (maxOpt : Option Nat) (l : List Alert) :
    cleanup_history maxOpt l <:+ l := by
  unfold cleanup_history sliceLast
  by_cases h : maxOpt.getD 1000 < l.length
  · rw [if_pos h]
    by_cases h0 : maxOpt.getD 1000 = 0
    · rw [if_pos h0]
    · rw [if_neg h0]
      exact List.drop_suffix _ _
  · rw [if_neg h]

/-- C7 (amended): for every positive history bound — the default 1000
included — processing preserves the bound, and eviction only ever keeps a
suffix (the most recent records, FIFO by age) of the old history plus the
newly appended record.  (With `max_history_size` configured as 0 the Python
slice `[-0:]` disables trimming, so the bound fails there.) -/
theorem history_bound_preserved (cfg : Config) (st : MState) (a : Alert) (now : Int)
    (sendOk : String → Bool) (hpos : 0 < cfg.max_history_size.getD 1000)
    (hlen : st.alert_history.length ≤ cfg.max_history_size.getD 1000) :
    (process_alert cfg st a now sendOk).state.alert_history.length ≤
      cfg.max_history_size.getD 1000 ∧
    ((process_alert cfg st a now sendOk).state.alert_history = st.alert_history ∨
      ∃ a3, (process_alert cfg st a now sendOk).state.alert_history <:+
        st.alert_history ++ [a3]) := by
  by_cases hrl : (check_rate_limit cfg st.sent_alerts_tracker a now).1 = false
  · have hh : (process_alert cfg st a now sendOk).state.alert_history = st.alert_history := by
      simp [process_alert, hrl]
    rw [hh]
    exact ⟨hlen, Or.inl rfl⟩
  · have hrl' : (check_rate_limit cfg st.sent_alerts_tracker a now).1 = true := by
      revert hrl
      cases (check_rate_limit cfg st.sent_alerts_tracker a now).1 <;> simp
    by_cases hdup : (is_duplicate st.recent_alerts a now (dupWindow cfg)).1 = true
    · have hh : (process_alert cfg st a now sendOk).state.alert_history
          = st.alert_history := by
        simp [process_alert, hrl', hdup]
      rw [hh]
      exact ⟨hlen, Or.inl rfl⟩
    · have hdup' : (is_duplicate st.recent_alerts a now (dupWindow cfg)).1 = false := by
        revert hdup
        cases (is_duplicate st.recent_alerts a now (dupWindow cfg)).1 <;> simp
      have hh : (process_alert cfg st a now sendOk).state.alert_history
          = cleanup_history cfg.max_history_size (st.alert_history ++
            [{ (fanoutLoop sendOk (a.channels.filter (fun ch => decide (ch ∈ cfg.channels)))
                a).alert with sent := true }]) := by
        simp [process_alert, hrl', hdup']
      rw [hh]
      exact ⟨cleanup_history_length _ _ hpos,
        Or.inr ⟨_, cleanup_history_suffix _ _⟩⟩

theorem history_bound_preserved_witness :
    (process_alert c6Config ⟨[], ["seen"], []⟩ c7Alert 0
      (fun _ => true)).state.alert_history.length ≤ c6Config.max_history_size.getD 1000 ∧
    ((process_alert c6Config ⟨[], ["seen"], []⟩ c7Alert 0
        (fun _ => true)).state.alert_history = (⟨[], ["seen"], []⟩ : MState).alert_history ∨
      ∃ a3, (process_alert c6Config ⟨[], ["seen"], []⟩ c7Alert 0
        (fun _ => true)).state.alert_history <:+
          (⟨[], ["seen"], []⟩ : MState).alert_history ++ [a3]) :=
  history_bound_preserved c6Config ⟨[], ["seen"], []⟩ c7Alert 0 (fun _ => true)
    (by decide) (by decide)

theorem admission_precedes_delivery_witness :
    (Event.rate_check true ∈ [Event.rate_check true, Event.dup_check false] ∧
      Event.dup_check false ∈ [Event.rate_check true, Event.dup_check false]) ∧
    (sendEvents (process_alert c6Config ⟨[], ["ETH_t6_m6"], []⟩ c6Alert 0
        (fun _ => true)).trace = [] ∧
      (process_alert c6Config ⟨[], ["ETH_t6_m6"], []⟩ c6Alert 0 (fun _ => true)).enqueued = [] ∧
      (process_alert c6Config ⟨[], ["ETH_t6_m6"], []⟩ c6Alert 0
        (fun _ => true)).state.alert_history = (⟨[], ["ETH_t6_m6"], []⟩ : MState).alert_history) :=
  ⟨(admission_precedes_delivery c6Config ⟨[], [], []⟩ c6Alert 0 (fun _ => true)).1
      [Event.rate_check true, Event.dup_check false] "email" true
      [Event.mark_sent, Event.history_append] rfl,
    (admission_precedes_delivery c6Config ⟨[], ["ETH_t6_m6"], []⟩ c6Alert 0
      (fun _ => true)).2 (Or.inr rfl)⟩

/-! ## Fanout and tracking lemmas -/

theorem fanoutLoop_preserves (sendOk : String → Bool) :
    ∀ (chs : List String) (a : Alert),
      (fanoutLoop sendOk chs a).alert.id = a.id ∧
      (fanoutLoop sendOk chs a).alert.channels = a.channels ∧
      (fanoutLoop sendOk chs a).alert.priority = a.priority := by
  intro chs
  induction chs with
  | nil =>
    intro a
    exact ⟨rfl, rfl, rfl⟩
  | cons c rest ih =>
    intro a
    simp only [fanoutLoop]
    by_cases h1 : sendOk c
    · simp only [if_pos h1]
      exact ih a
    · simp only [if_neg h1]
      by_cases h2 : a.priority = AlertPriority.critical ∧ a.retry_count < 3
      · simp only [if_pos h2]
        exact ih { a with retry_count := a.retry_count + 1 }
      · simp only [if_neg h2]
        exact ih a

theorem trackSentLoop_mem_mono (p : String) (now : Int) :
    ∀ (chs : List String) (t : Tracker) (k : String) (x : Int),
      x ∈ trackGet t k → x ∈ trackGet (trackSentLoop p now chs t) k := by
  intro chs
  induction chs with
  | nil =>
    intro t k x hx
    exact hx
  | cons c rest ih =>
    intro t k x hx
    simp only [trackSentLoop]
    apply ih
    rw [trackGet_trackSet]
    by_cases hk : rateKey c p = k
    · subst hk
      rw [if_pos rfl]
      exact List.mem_append_left _ hx
    · rw [if_neg hk]
      exact hx

theorem trackSentLoop_mem (p : String) (now : Int) :
    ∀ (chs : List String) (t : Tracker) (ch : String), ch ∈ chs →
      now ∈ trackGet (trackSentLoop p now chs t) (rateKey ch p) := by
  intro chs
  induction chs with
  | nil =>
    intro t ch h
    simp at h
  | cons c rest ih =>
    intro t ch h
    rcases List.mem_cons.mp h with hc | hrest
    · subst hc
      simp only [trackSentLoop]
      apply trackSentLoop_mem_mono
      rw [trackGet_trackSet, if_pos rfl]
      exact List.mem_append_right _ (List.mem_singleton.mpr rfl)
    · simp only [trackSentLoop]
      exact ih _ ch hrest

/-- C10: once an alert passes both admission checks, processing — whatever the
send outcomes, and even for target channels that are not registered and hence
never attempted — appends a record with `sent = true` to the history and adds
the current timestamp to the rate tracker of every target channel, so the
total-sent statistic and the rate counters count failed and unattempted
deliveries exactly like successful ones. -/
theorem process_tracks_all_channels_unconditionally (cfg : Config) (st : MState)
    (a : Alert) (now : Int) (sendOk : String → Bool)
    (hrl : (check_rate_limit cfg st.sent_alerts_tracker a now).1 = true)
    (hdup : (is_duplicate st.recent_alerts a now (dupWindow cfg)).1 = false)
    (hlen : st.alert_history.length < cfg.max_history_size.getD 1000) :
    (∃ a3, (process_alert cfg st a now sendOk).state.alert_history
        = st.alert_history ++ [a3] ∧ a3.sent = true ∧ a3.id = a.id ∧
        a3.channels = a.channels ∧ a3.priority = a.priority) ∧
    (∀ ch ∈ a.channels,
      now ∈ trackGet (process_alert cfg st a now sendOk).state.sent_alerts_tracker
        (rateKey ch a.priority.value)) := by
  have hpres := fanoutLoop_preserves sendOk
    (a.channels.filter (fun ch => decide (ch ∈ cfg.channels))) a
  have hh : (process_alert cfg st a now sendOk).state.alert_history
      = cleanup_history cfg.max_history_size (st.alert_history ++
        [{ (fanoutLoop sendOk (a.channels.filter (fun ch => decide (ch ∈ cfg.channels)))
            a).alert with sent := true }]) := by
    simp [process_alert, hrl, hdup]
  have htk : (process_alert cfg st a now sendOk).state.sent_alerts_tracker
      = track_sent_alert
        { (fanoutLoop sendOk (a.channels.filter (fun ch => decide (ch ∈ cfg.channels)))
            a).alert with sent := true } now
        (check_rate_limit cfg st.sent_alerts_tracker a now).2 := by
    simp [process_alert, hrl, hdup]
  have hnotrim : cleanup_history cfg.max_history_size (st.alert_history ++
      [{ (fanoutLoop sendOk (a.channels.filter (fun ch => decide (ch ∈ cfg.channels)))
          a).alert with sent := true }])
      = st.alert_history ++
        [{ (fanoutLoop sendOk (a.channels.filter (fun ch => decide (ch ∈ cfg.channels)))
            a).alert with sent := true }] := by
    unfold cleanup_history
    rw [if_neg]
    rw [List.length_append, List.length_singleton]
    omega
  constructor
  · exact ⟨{ (fanoutLoop sendOk (a.channels.filter (fun ch => decide (ch ∈ cfg.channels)))
        a).alert with sent := true },
      by rw [hh, hnotrim], rfl, hpres.1, hpres.2.1, hpres.2.2⟩
  · intro ch hch
    rw [htk]
    have hchs : ({ (fanoutLoop sendOk
        (a.channels.filter (fun c' => decide (c' ∈ cfg.channels))) a).alert with
        sent := true } : Alert).channels = a.channels := hpres.2.1
    have hprio : ({ (fanoutLoop sendOk
        (a.channels.filter (fun c' => decide (c' ∈ cfg.channels))) a).alert with
        sent := true } : Alert).priority = a.priority := hpres.2.2
    have h1 := trackSentLoop_mem
      ({ (fanoutLoop sendOk (a.channels.filter (fun c' => decide (c' ∈ cfg.channels)))
          a).alert with sent := true } : Alert).priority.value now
      ({ (fanoutLoop sendOk (a.channels.filter (fun c' => decide (c' ∈ cfg.channels)))
          a).alert with sent := true } : Alert).channels
      (check_rate_limit cfg st.sent_alerts_tracker a now).2 ch (by rw [hchs]; exact hch)
    have hkey : rateKey ch a.priority.value
        = rateKey ch ({ (fanoutLoop sendOk
            (a.channels.filter (fun c' => decide (c' ∈ cfg.channels))) a).alert with
            sent := true } : Alert).priority.value := by
      rw [hprio]
    rw [hkey]
    exact h1

theorem process_tracks_all_channels_unconditionally_witness :
    (∃ a3, (process_alert c10Config ⟨[], [], []⟩ c10Alert 0
        (fun _ => false)).state.alert_history
        = (⟨[], [], []⟩ : MState).alert_history ++ [a3] ∧ a3.sent = true ∧
        a3.id = c10Alert.id ∧ a3.channels = c10Alert.channels ∧
        a3.priority = c10Alert.priority) ∧
    (∀ ch ∈ c10Alert.channels,
      (0 : Int) ∈ trackGet (process_alert c10Config ⟨[], [], []⟩ c10Alert 0
        (fun _ => false)).state.sent_alerts_tracker (rateKey ch c10Alert.priority.value)) :=
  process_tracks_all_channels_unconditionally c10Config ⟨[], [], []⟩ c10Alert 0
    (fun _ => false) rfl rfl (by decide)
